import Mathlib

/-!
Verification of the Co-op eligibility evaluator of `src/app.py`.

The only decision logic in the repository is the function
`check_coop_eligibility(student, position)` (src/app.py, lines 142-178).
It reads five fields — `student.gpa`, `student.is_transfer`,
`student.semesters_completed`, `position.weeks`, `position.hours_per_week` —
and returns a pair `(eligible, reasons)`.

The embedding below models the two SQLAlchemy records as Lean structures
(nullable columns become `Option`), the Python float `gpa` as a rational
number, Python integers as `Int`, and the imperative
`eligible = False; reasons.append(...)` pattern as explicit state passing
through the helper `step`.
-/

namespace Coop

/-- Student-relevant fields of the `User` model (src/app.py, lines 18-45).
Nullable columns are `Option`; `gpa` (a Python float holding a decimal
grade point) is modelled as a rational. -/
structure StudentRecord where
  role : String
  full_name : String
  email : String
  major : Option String
  credit_hours_completed : Option Int
  gpa : Option ℚ
  is_transfer : Option Bool
  semesters_completed : Option Int
  resume_text : Option String
deriving DecidableEq

/-- The `Position` model (src/app.py, lines 60-74). `weeks` and
`hours_per_week` are non-nullable integer columns. -/
structure Position where
  employer_id : Int
  title : String
  description : String
  weeks : Int
  hours_per_week : Int
  location : Option String
  majors_of_interest : Option String
  required_skills : Option String
  salary : Option String
  status : String
deriving DecidableEq

/-- The literal appended at src/app.py line 156. -/
def gpaMsg : String := "GPA below 2.0"

/-- The f-string at src/app.py line 161, with the week count interpolated. -/
def weeksMsg (w : Int) : String := "Position weeks " ++ toString w ++ " < 7"

/-- The f-string at src/app.py line 165, with the hour total interpolated. -/
def totalMsg (t : Int) : String := "Total hours " ++ toString t ++ " < 140"

/-- The literal appended at src/app.py line 172. -/
def transferMsg : String := "Transfer student must have completed at least 1 semester"

/-- The literal appended at src/app.py line 176. -/
def nonTransferMsg : String := "Non-transfer student must have completed at least 2 semesters"

/-- One `if cond: eligible = False; reasons.append(msg)` block of the Python
function, acting on the state `(eligible, reasons)`. -/
def step (cond : Prop) [Decidable cond] (msg : String) (st : Bool × List String) :
    Bool × List String :=
  if cond then (false, st.2 ++ [msg]) else st

/-- The Python condition `student.gpa is None or student.gpa < 2.0` needs a
decidability instance for its second disjunct. -/
instance instDecGpaLow (g : Option ℚ) : Decidable (∃ v, g = some v ∧ v < 2) :=
  match g with
  | none => isFalse fun ⟨_, hv, _⟩ => Option.noConfusion hv
  | some w =>
    if h : w < 2 then isTrue ⟨w, rfl, h⟩
    else isFalse (by rintro ⟨v, hv, hlt⟩; cases hv; exact h hlt)

/-- `check_coop_eligibility` (src/app.py, lines 142-178), line by line:
the GPA check (`student.gpa is None or student.gpa < 2.0`), the two
independent duration checks, and the tenure check after normalizing
`sc = student.semesters_completed or 0`.  A `None` value of the nullable
boolean column `is_transfer` is falsy in Python, hence `Option.getD false`. -/
def check_coop_eligibility (student : StudentRecord) (position : Position) :
    Bool × List String :=
  let st : Bool × List String := (true, [])
  let st := step (student.gpa = none ∨ ∃ g, student.gpa = some g ∧ g < 2) gpaMsg st
  let st := step (position.weeks < 7) (weeksMsg position.weeks) st
  let total_hours := position.weeks * position.hours_per_week
  let st := step (total_hours < 140) (totalMsg total_hours) st
  let sc := student.semesters_completed.getD 0
  if student.is_transfer.getD false then
    step (sc < 1) transferMsg st
  else
    step (sc < 2) nonTransferMsg st

/-- Follows the words of the specification (spec.md §4.1): the reasons list
is the order-stable concatenation of the reason strings of the failing
checks, in the fixed order GPA, weeks, total hours, tenure. -/
def reasonsSpec (student : StudentRecord) (position : Position) : List String :=
  (if student.gpa = none ∨ ∃ g, student.gpa = some g ∧ g < 2 then [gpaMsg] else [])
  ++ (if position.weeks < 7 then [weeksMsg position.weeks] else [])
  ++ (if position.weeks * position.hours_per_week < 140 then
        [totalMsg (position.weeks * position.hours_per_week)] else [])
  ++ (if student.is_transfer.getD false then
        (if student.semesters_completed.getD 0 < 1 then [transferMsg] else [])
      else
        (if student.semesters_completed.getD 0 < 2 then [nonTransferMsg] else []))

/-- The sequential accumulation of the source computes exactly the
concatenation described by the spec, and the eligible flag is the emptiness
of that list. -/
lemma check_eq_spec (s : StudentRecord) (p : Position) :
    check_coop_eligibility s p = ((reasonsSpec s p).isEmpty, reasonsSpec s p) := by
  by_cases h1 : (s.gpa = none ∨ ∃ g, s.gpa = some g ∧ g < 2) <;>
    by_cases h2 : p.weeks < 7 <;>
      by_cases h3 : p.weeks * p.hours_per_week < 140 <;>
        by_cases h4 : s.is_transfer.getD false = true <;>
          by_cases h5 : s.semesters_completed.getD 0 < 1 <;>
            by_cases h6 : s.semesters_completed.getD 0 < 2 <;>
              simp [check_coop_eligibility, reasonsSpec, step, h1, h2, h3, h4, h5, h6]

/-- Two strings whose first two characters differ are distinct. -/
lemma ne_of_take_ne (s t : String) (h : s.data.take 2 ≠ t.data.take 2) : s ≠ t :=
  fun he => h (by rw [he])

/-- The interpolated weeks message always begins with the characters of its
fixed template. -/
lemma weeksMsg_take (w : Int) : (weeksMsg w).data.take 2 = ['P', 'o'] := by
  have h : 2 ≤ ("Position weeks ".data ++ (toString w).data).length := by
    rw [List.length_append]
    have h15 : "Position weeks ".data.length = 15 := by decide
    omega
  unfold weeksMsg
  rw [String.data_append, String.data_append, List.take_append_of_le_length h,
    List.take_append_of_le_length (by decide)]
  decide

/-- The interpolated total-hours message always begins with the characters of
its fixed template. -/
lemma totalMsg_take (t : Int) : (totalMsg t).data.take 2 = ['T', 'o'] := by
  have h : 2 ≤ ("Total hours ".data ++ (toString t).data).length := by
    rw [List.length_append]
    have h12 : "Total hours ".data.length = 12 := by decide
    omega
  unfold totalMsg
  rw [String.data_append, String.data_append, List.take_append_of_le_length h,
    List.take_append_of_le_length (by decide)]
  decide

lemma weeksMsg_ne_gpaMsg (w : Int) : weeksMsg w ≠ gpaMsg :=
  ne_of_take_ne _ _ (by rw [weeksMsg_take]; decide)

lemma weeksMsg_ne_transferMsg (w : Int) : weeksMsg w ≠ transferMsg :=
  ne_of_take_ne _ _ (by rw [weeksMsg_take]; decide)

lemma weeksMsg_ne_nonTransferMsg (w : Int) : weeksMsg w ≠ nonTransferMsg :=
  ne_of_take_ne _ _ (by rw [weeksMsg_take]; decide)

lemma weeksMsg_ne_totalMsg (w t : Int) : weeksMsg w ≠ totalMsg t :=
  ne_of_take_ne _ _ (by rw [weeksMsg_take, totalMsg_take]; decide)

lemma totalMsg_ne_gpaMsg (t : Int) : totalMsg t ≠ gpaMsg :=
  ne_of_take_ne _ _ (by rw [totalMsg_take]; decide)

lemma totalMsg_ne_transferMsg (t : Int) : totalMsg t ≠ transferMsg :=
  ne_of_take_ne _ _ (by rw [totalMsg_take]; decide)

lemma totalMsg_ne_nonTransferMsg (t : Int) : totalMsg t ≠ nonTransferMsg :=
  ne_of_take_ne _ _ (by rw [totalMsg_take]; decide)

/-- Membership in the returned reasons list, characterized check by check. -/
lemma mem_reasons_iff (s : StudentRecord) (p : Position) (m : String) :
    m ∈ (check_coop_eligibility s p).2 ↔
      ((s.gpa = none ∨ ∃ g, s.gpa = some g ∧ g < 2) ∧ m = gpaMsg) ∨
      (p.weeks < 7 ∧ m = weeksMsg p.weeks) ∨
      (p.weeks * p.hours_per_week < 140 ∧ m = totalMsg (p.weeks * p.hours_per_week)) ∨
      (s.is_transfer.getD false = true ∧ s.semesters_completed.getD 0 < 1 ∧
        m = transferMsg) ∨
      (s.is_transfer.getD false = false ∧ s.semesters_completed.getD 0 < 2 ∧
        m = nonTransferMsg) := by
  rw [check_eq_spec]
  show m ∈ reasonsSpec s p ↔ _
  unfold reasonsSpec
  by_cases h1 : (s.gpa = none ∨ ∃ g, s.gpa = some g ∧ g < 2) <;>
    by_cases h2 : p.weeks < 7 <;>
      by_cases h3 : p.weeks * p.hours_per_week < 140 <;>
        by_cases h4 : s.is_transfer.getD false = true <;>
          by_cases h5 : s.semesters_completed.getD 0 < 1 <;>
            by_cases h6 : s.semesters_completed.getD 0 < 2 <;>
              simp [h1, h2, h3, h4, h5, h6]

/-- Sample eligible student of `init_db` (src/app.py line 430): Jack Student,
gpa 3.1, two semesters completed, not a transfer student. -/
def jackStudent : StudentRecord :=
  { role := "student", full_name := "Jack Student", email := "jack@student.com",
    major := none, credit_hours_completed := none, gpa := some (mkRat 31 10),
    is_transfer := some false, semesters_completed := some 2, resume_text := none }

/-- Sample ineligible student of `init_db` (src/app.py line 433): Sam LowGPA,
gpa 1.8, three semesters completed, not a transfer student. -/
def samLowGpa : StudentRecord :=
  { role := "student", full_name := "Sam LowGPA", email := "sam@student.com",
    major := none, credit_hours_completed := none, gpa := some (mkRat 9 5),
    is_transfer := some false, semesters_completed := some 3, resume_text := none }

/-- Sample qualifying position of `init_db` (src/app.py line 442):
8 weeks at 20 hours per week, 160 total hours. -/
def softwareInternPos : Position :=
  { employer_id := 1, title := "Software Intern",
    description := "Internship for backend dev", weeks := 8, hours_per_week := 20,
    location := some ("Remote"), majors_of_interest := some ("CS"),
    required_skills := some ("Python"), salary := some ("$3000"), status := "open" }

/-- Sample non-qualifying position of `init_db` (src/app.py line 444):
6 weeks at 20 hours per week, 120 total hours. -/
def shortInternPos : Position :=
  { employer_id := 1, title := "Short Internship", description := "Short term",
    weeks := 6, hours_per_week := 20, location := some ("Ann Arbor"),
    majors_of_interest := some ("CS"), required_skills := some ("Java"),
    salary := some ("$1200"), status := "open" }

/-- Claim C1: the eligible flag is true exactly when the reasons list is
empty, and any input with a present gpa of at least 2.0, at least 7 weeks,
at least 140 total hours, and enough completed semesters for its transfer
status evaluates to `(true, [])`. -/
theorem eligible_iff_reasons_nil (s : StudentRecord) (p : Position) :
    ((check_coop_eligibility s p).1 = true ↔ (check_coop_eligibility s p).2 = []) ∧
    (∀ g : ℚ, s.gpa = some g → 2 ≤ g → 7 ≤ p.weeks →
      140 ≤ p.weeks * p.hours_per_week →
      (if s.is_transfer.getD false then 1 ≤ s.semesters_completed.getD 0
        else 2 ≤ s.semesters_completed.getD 0) →
      check_coop_eligibility s p = (true, [])) := by
  constructor
  · rw [check_eq_spec]
    exact List.isEmpty_iff
  · intro g hg h2 h7 h140 hten
    have hr : reasonsSpec s p = [] := by
      have hc1 : ¬(s.gpa = none ∨ ∃ v, s.gpa = some v ∧ v < 2) := by
        rintro (hnone | ⟨v, hv, hlt⟩)
        · rw [hg] at hnone
          exact Option.noConfusion hnone
        · rw [hg, Option.some.injEq] at hv
          rw [← hv] at hlt
          linarith
      unfold reasonsSpec
      rw [if_neg hc1, if_neg (by omega), if_neg (by omega)]
      by_cases ht : s.is_transfer.getD false = true
      · rw [if_pos ht] at hten ⊢
        rw [if_neg (by omega)]
        rfl
      · rw [if_neg ht] at hten ⊢
        rw [if_neg (by omega)]
        rfl
    rw [check_eq_spec, hr]
    rfl

theorem eligible_iff_reasons_nil_witness :
    check_coop_eligibility jackStudent softwareInternPos = (true, []) :=
  (eligible_iff_reasons_nil jackStudent softwareInternPos).2 (mkRat 31 10)
    rfl (by decide) (by decide) (by decide) (by decide)

/-- Claim C2: the reasons list contains the literal "GPA below 2.0" exactly
when the gpa is absent or below 2.0, whatever the other fields are. -/
theorem gpa_reason_iff (s : StudentRecord) (p : Position) :
    "GPA below 2.0" ∈ (check_coop_eligibility s p).2 ↔
      (s.gpa = none ∨ ∃ g, s.gpa = some g ∧ g < 2) := by
  rw [mem_reasons_iff]
  constructor
  · rintro (⟨h, -⟩ | ⟨-, h⟩ | ⟨-, h⟩ | ⟨-, -, h⟩ | ⟨-, -, h⟩)
    · exact h
    · exact absurd h.symm (weeksMsg_ne_gpaMsg _)
    · exact absurd h.symm (totalMsg_ne_gpaMsg _)
    · exact absurd h (by decide)
    · exact absurd h (by decide)
  · intro h
    exact Or.inl ⟨h, rfl⟩

/-- Claim C3: the two duration checks are independent; the weeks message
with the actual week count appears exactly when weeks < 7, the total-hours
message with the actual total appears exactly when the total is below 140,
and 6 weeks at 20 hours per week produces both messages. -/
theorem duration_reasons_independent (s : StudentRecord) (p : Position) :
    (weeksMsg p.weeks ∈ (check_coop_eligibility s p).2 ↔ p.weeks < 7) ∧
    (totalMsg (p.weeks * p.hours_per_week) ∈ (check_coop_eligibility s p).2 ↔
      p.weeks * p.hours_per_week < 140) ∧
    (p.weeks = 6 → p.hours_per_week = 20 →
      "Position weeks 6 < 7" ∈ (check_coop_eligibility s p).2 ∧
      "Total hours 120 < 140" ∈ (check_coop_eligibility s p).2) := by
  refine ⟨?_, ?_, ?_⟩
  · rw [mem_reasons_iff]
    constructor
    · rintro (⟨-, h⟩ | ⟨hw, -⟩ | ⟨-, h⟩ | ⟨-, -, h⟩ | ⟨-, -, h⟩)
      · exact absurd h (weeksMsg_ne_gpaMsg _)
      · exact hw
      · exact absurd h (weeksMsg_ne_totalMsg _ _)
      · exact absurd h (weeksMsg_ne_transferMsg _)
      · exact absurd h (weeksMsg_ne_nonTransferMsg _)
    · exact fun hw => Or.inr (Or.inl ⟨hw, rfl⟩)
  · rw [mem_reasons_iff]
    constructor
    · rintro (⟨-, h⟩ | ⟨-, h⟩ | ⟨hh, -⟩ | ⟨-, -, h⟩ | ⟨-, -, h⟩)
      · exact absurd h (totalMsg_ne_gpaMsg _)
      · exact absurd h.symm (weeksMsg_ne_totalMsg _ _)
      · exact hh
      · exact absurd h (totalMsg_ne_transferMsg _)
      · exact absurd h (totalMsg_ne_nonTransferMsg _)
    · exact fun hh => Or.inr (Or.inr (Or.inl ⟨hh, rfl⟩))
  · intro h6 h20
    constructor
    · have hmem := (mem_reasons_iff s p (weeksMsg p.weeks)).2
        (Or.inr (Or.inl ⟨by omega, rfl⟩))
      have he : weeksMsg 6 = "Position weeks 6 < 7" := by decide
      rwa [h6, he] at hmem
    · have hmem := (mem_reasons_iff s p (totalMsg (p.weeks * p.hours_per_week))).2
        (Or.inr (Or.inr (Or.inl ⟨by rw [h6, h20]; decide, rfl⟩)))
      have he : totalMsg 120 = "Total hours 120 < 140" := by decide
      rwa [h6, h20, show (6 : Int) * 20 = 120 from by decide, he] at hmem

theorem duration_reasons_independent_witness :
    "Position weeks 6 < 7" ∈ (check_coop_eligibility jackStudent shortInternPos).2 ∧
    "Total hours 120 < 140" ∈ (check_coop_eligibility jackStudent shortInternPos).2 :=
  (duration_reasons_independent jackStudent shortInternPos).2.2 rfl rfl

/-- Claim C4: the transfer message appears exactly for transfer students with
fewer than 1 completed semester, the non-transfer message exactly for
non-transfer students with fewer than 2, and the two messages never appear
together. -/
theorem tenure_reasons (s : StudentRecord) (p : Position) :
    ("Transfer student must have completed at least 1 semester"
        ∈ (check_coop_eligibility s p).2 ↔
      s.is_transfer.getD false = true ∧ s.semesters_completed.getD 0 < 1) ∧
    ("Non-transfer student must have completed at least 2 semesters"
        ∈ (check_coop_eligibility s p).2 ↔
      s.is_transfer.getD false = false ∧ s.semesters_completed.getD 0 < 2) ∧
    ¬("Transfer student must have completed at least 1 semester"
        ∈ (check_coop_eligibility s p).2 ∧
      "Non-transfer student must have completed at least 2 semesters"
        ∈ (check_coop_eligibility s p).2) := by
  have hA : "Transfer student must have completed at least 1 semester"
      ∈ (check_coop_eligibility s p).2 ↔
      s.is_transfer.getD false = true ∧ s.semesters_completed.getD 0 < 1 := by
    rw [mem_reasons_iff]
    constructor
    · rintro (⟨-, h⟩ | ⟨-, h⟩ | ⟨-, h⟩ | ⟨ht, hsc, -⟩ | ⟨-, -, h⟩)
      · exact absurd h (by decide)
      · exact absurd h.symm (weeksMsg_ne_transferMsg _)
      · exact absurd h.symm (totalMsg_ne_transferMsg _)
      · exact ⟨ht, hsc⟩
      · exact absurd h (by decide)
    · exact fun ⟨ht, hsc⟩ => Or.inr (Or.inr (Or.inr (Or.inl ⟨ht, hsc, rfl⟩)))
  have hB : "Non-transfer student must have completed at least 2 semesters"
      ∈ (check_coop_eligibility s p).2 ↔
      s.is_transfer.getD false = false ∧ s.semesters_completed.getD 0 < 2 := by
    rw [mem_reasons_iff]
    constructor
    · rintro (⟨-, h⟩ | ⟨-, h⟩ | ⟨-, h⟩ | ⟨-, -, h⟩ | ⟨ht, hsc, -⟩)
      · exact absurd h (by decide)
      · exact absurd h.symm (weeksMsg_ne_nonTransferMsg _)
      · exact absurd h.symm (totalMsg_ne_nonTransferMsg _)
      · exact absurd h (by decide)
      · exact ⟨ht, hsc⟩
    · exact fun ⟨ht, hsc⟩ => Or.inr (Or.inr (Or.inr (Or.inr ⟨ht, hsc, rfl⟩)))
  refine ⟨hA, hB, fun ⟨hx, hy⟩ => ?_⟩
  have h1 := (hA.1 hx).1
  have h2 := (hB.1 hy).1
  rw [h1] at h2
  exact Bool.noConfusion h2

/-- Claim C5: the evaluator is a total function; a null gpa behaves exactly
like the failing value 0, and a null semester count behaves exactly like 0,
so every input yields a defined pair. -/
theorem null_inputs_normalized (s : StudentRecord) (p : Position) :
    check_coop_eligibility { s with gpa := none } p
      = check_coop_eligibility { s with gpa := some 0 } p ∧
    check_coop_eligibility { s with semesters_completed := none } p
      = check_coop_eligibility { s with semesters_completed := some 0 } p ∧
    ∃ e r, check_coop_eligibility s p = (e, r) := by
  refine ⟨?_, ?_, _, _, rfl⟩
  · rw [check_eq_spec, check_eq_spec]
    have e1 : reasonsSpec { s with gpa := none } p
        = reasonsSpec { s with gpa := some 0 } p := by
      unfold reasonsSpec
      rw [if_pos (Or.inl rfl), if_pos (Or.inr ⟨0, rfl, by norm_num⟩)]
    rw [e1]
  · rfl

/-- Claim C6: the reasons list is the order-stable concatenation of the
failing checks in the fixed order GPA, weeks, total hours, tenure, and the
ineligible sample pair of the repository evaluates to the three expected
messages. -/
theorem reasons_order (s : StudentRecord) (p : Position) :
    (check_coop_eligibility s p).2 = reasonsSpec s p ∧
    check_coop_eligibility samLowGpa shortInternPos =
      (false,
        ["GPA below 2.0", "Position weeks 6 < 7", "Total hours 120 < 140"]) := by
  refine ⟨?_, by decide⟩
  rw [check_eq_spec]

/-- Pairs the result of the evaluator with the records as they stand after
the call. The body of `check_coop_eligibility` (src/app.py, lines 142-178)
contains no assignment to any attribute of either argument, so its embedding
returns the records exactly as given. -/
def check_coop_eligibility_run (student : StudentRecord) (position : Position) :
    (Bool × List String) × StudentRecord × Position :=
  (check_coop_eligibility student position, student, position)

/-- Claim C7: the evaluator never mutates either input record; after the
call both records are unchanged and the returned verdict is the pure
evaluation. -/
theorem no_mutation (s : StudentRecord) (p : Position) :
    (check_coop_eligibility_run s p).2.1 = s ∧
    (check_coop_eligibility_run s p).2.2 = p ∧
    (check_coop_eligibility_run s p).1 = check_coop_eligibility s p :=
  ⟨rfl, rfl, rfl⟩

/-- Claim C8: the evaluator is deterministic and idempotent; two calls on
records that agree on every field return the same pair. -/
theorem deterministic_idempotent (s₁ s₂ : StudentRecord) (p₁ p₂ : Position)
    (hrole : s₁.role = s₂.role) (hname : s₁.full_name = s₂.full_name)
    (hmail : s₁.email = s₂.email) (hmaj : s₁.major = s₂.major)
    (hch : s₁.credit_hours_completed = s₂.credit_hours_completed)
    (hg : s₁.gpa = s₂.gpa) (ht : s₁.is_transfer = s₂.is_transfer)
    (hsc : s₁.semesters_completed = s₂.semesters_completed)
    (hrt : s₁.resume_text = s₂.resume_text)
    (hemp : p₁.employer_id = p₂.employer_id) (hti : p₁.title = p₂.title)
    (hd : p₁.description = p₂.description) (hw : p₁.weeks = p₂.weeks)
    (hhw : p₁.hours_per_week = p₂.hours_per_week)
    (hl : p₁.location = p₂.location)
    (hmoi : p₁.majors_of_interest = p₂.majors_of_interest)
    (hrs : p₁.required_skills = p₂.required_skills)
    (hsal : p₁.salary = p₂.salary) (hst : p₁.status = p₂.status) :
    check_coop_eligibility s₁ p₁ = check_coop_eligibility s₂ p₂ := by
  have hs : s₁ = s₂ := by
    cases s₁
    cases s₂
    simp_all
  have hp : p₁ = p₂ := by
    cases p₁
    cases p₂
    simp_all
  rw [hs, hp]

theorem deterministic_idempotent_witness :
    check_coop_eligibility jackStudent shortInternPos
      = check_coop_eligibility jackStudent shortInternPos :=
  deterministic_idempotent jackStudent jackStudent shortInternPos shortInternPos
    rfl rfl rfl rfl rfl rfl rfl rfl rfl rfl rfl rfl rfl rfl rfl rfl rfl rfl rfl

/-- Claim C9: noninterference over unused fields; the result depends only on
the gpa, transfer status, completed semesters, weeks, and hours per week. -/
theorem noninterference_unused_fields (s₁ s₂ : StudentRecord) (p₁ p₂ : Position)
    (hg : s₁.gpa = s₂.gpa) (ht : s₁.is_transfer = s₂.is_transfer)
    (hsc : s₁.semesters_completed = s₂.semesters_completed)
    (hw : p₁.weeks = p₂.weeks) (hhw : p₁.hours_per_week = p₂.hours_per_week) :
    check_coop_eligibility s₁ p₁ = check_coop_eligibility s₂ p₂ := by
  unfold check_coop_eligibility
  rw [hg, ht, hsc, hw, hhw]

/-- A record agreeing with `jackStudent` on the five fields the evaluator
reads but differing on email, resume text, and completed credit hours. -/
def jackVariant : StudentRecord :=
  { jackStudent with
    email := "jack.other@student.com",
    credit_hours_completed := some 60, resume_text := some ("Resume on file"),
    major := some ("CS") }

/-- A record agreeing with `softwareInternPos` on weeks and hours per week
but differing on title, location, salary, and status. -/
def softwareInternPosVariant : Position :=
  { softwareInternPos with
    title := "Backend Intern",
    location := some ("Ann Arbor"), salary := some ("$4000"), status := "closed" }

theorem noninterference_unused_fields_witness :
    check_coop_eligibility jackStudent softwareInternPos
      = check_coop_eligibility jackVariant softwareInternPosVariant :=
  noninterference_unused_fields jackStudent jackVariant softwareInternPos
    softwareInternPosVariant rfl rfl rfl rfl rfl

/-- Claim C10: a null `is_transfer` is treated as a non-transfer student:
the evaluation agrees with the explicit `some false` record, and on failure
the non-transfer message is the one produced. -/
theorem null_transfer_as_nontransfer (s : StudentRecord) (p : Position)
    (h : s.is_transfer = none) :
    check_coop_eligibility s p
      = check_coop_eligibility { s with is_transfer := some false } p ∧
    (s.semesters_completed.getD 0 < 2 →
      "Non-transfer student must have completed at least 2 semesters"
        ∈ (check_coop_eligibility s p).2) := by
  constructor
  · unfold check_coop_eligibility
    rw [h]
    rfl
  · intro hsc
    exact (mem_reasons_iff s p _).2
      (Or.inr (Or.inr (Or.inr (Or.inr ⟨by rw [h]; rfl, hsc, rfl⟩))))

/-- A student with a null transfer flag, one completed semester, and a
passing gpa. -/
def transferNullStudent : StudentRecord :=
  { role := "student", full_name := "Tess Null", email := "tess@student.com",
    major := none, credit_hours_completed := none, gpa := some 3,
    is_transfer := none, semesters_completed := some 1, resume_text := none }

theorem null_transfer_as_nontransfer_witness :
    check_coop_eligibility transferNullStudent shortInternPos
      = check_coop_eligibility
          { transferNullStudent with is_transfer := some false } shortInternPos ∧
    "Non-transfer student must have completed at least 2 semesters"
      ∈ (check_coop_eligibility transferNullStudent shortInternPos).2 :=
  ⟨(null_transfer_as_nontransfer transferNullStudent shortInternPos rfl).1,
    (null_transfer_as_nontransfer transferNullStudent shortInternPos rfl).2
      (by decide)⟩

end Coop
